import Mathlib

/-!
Shallow embedding of the ObjectWise matching, synthesis and fallback core.

The definitions below are translated from the repository's JavaScript source:
the authoritative matcher, recognition orchestrator and demo heuristic from
the provider file `src/unnamed/part_000` (functions `matchToDatabase`,
`callComputerVisionAPI`, `performObjectRecognition`,
`performIntelligentMatching`, `performDemoMatching`), the superseded matcher
from `src/unnamed/part_001`, and the instruction synthesizer from
`src/src/data/visionToInstructions.js` (`generateInstructionsForObject`).

JavaScript numbers are modelled as rationals (`ℚ`); `Math.round` is
half-up rounding, `Math.floor` is the integer floor.  JavaScript string
operations (`includes`, `toLowerCase`, `split`, string templates) are
modelled on Lean strings.  Fields that may be `undefined` in a detection
record are modelled with `Option`; the JavaScript `a || b` fallback chain
(where the empty string and `undefined` are falsy) is modelled explicitly.
The knowledge base `objectDatabase`, an ambient read-only table in the
source, is passed as an explicit list parameter.
-/

namespace ObjectWise

attribute [local semireducible] Rat.mul Rat.add Rat.sub Rat.inv Rat.ofScientific

/-- JavaScript `toLowerCase` on one character (the labels handled by this
repository are ASCII). -/
def jsLowerChar (c : Char) : Char := c.toLower

/-- JavaScript `s.toLowerCase()`, written structurally over the character
list so that it evaluates inside the kernel. -/
def jsToLower (s : String) : String := String.mk (s.data.map jsLowerChar)

/-- Substring test on character lists: `strContains hay needle` is true when
`needle` occurs contiguously inside `hay` (the semantics of JavaScript
`hay.includes(needle)`). -/
def strContains : List Char → List Char → Bool
  | _, [] => true
  | [], _ :: _ => false
  | c :: rest, d :: ds => List.isPrefixOf (d :: ds) (c :: rest) || strContains rest (d :: ds)

/-- JavaScript `hay.includes(needle)` on strings. -/
def jsIncludes (hay needle : String) : Bool :=
  strContains hay.toList needle.toList

/-- JavaScript `Math.round`: half-up rounding (`Math.round(x) = ⌊x + 1/2⌋`). -/
def jsRound (q : ℚ) : ℤ := ⌊q + 1/2⌋

/-- JavaScript `Math.floor`. -/
def jsFloor (q : ℚ) : ℤ := ⌊q⌋

/-- One detection record returned by the vision provider.  Label-style
records carry a `description`, localized-object records carry a `name`;
either (and the `score`) may be absent. -/
structure Detection where
  description : Option String
  name : Option String
  score : Option ℚ
deriving DecidableEq

/-- The JavaScript expression `detection.description || detection.name`:
an empty or absent `description` falls through to `name` (the empty string
is falsy in JavaScript).  `none` models the `undefined` result. -/
def jsLabelOpt (d : Detection) : Option String :=
  match d.description with
  | some s => if s = "" then d.name else some s
  | none => d.name

/-- The matcher's label extraction
`(detection.description || detection.name || '').toLowerCase()` before the
final lowering step: absent labels default to the empty string. -/
def jsLabel (d : Detection) : String :=
  (jsLabelOpt d).getD ""

/-- One entry of the curated knowledge base (`objectDatabase`); only the
fields inspected by the matching core are modelled. -/
structure KnowledgeEntry where
  name : String
  category : String
  tags : List String
deriving DecidableEq

/-- The record built by the authoritative matcher for the best pair.  The
source stores `matchScore.toFixed(2)` (a decimal string); the raw rational
score is kept here. -/
structure MatchResult where
  object : KnowledgeEntry
  confidence : ℤ
  detectedAs : String
  matchScore : ℚ
deriving DecidableEq

/-- The `keywordMappings` table of the authoritative matcher
(`src/unnamed/part_000`, lines 245-252), in insertion order. -/
def keywordMappings : List (String × List String) :=
  [("mobile phone", ["smartphone", "phone", "mobile"]),
   ("smartphone", ["mobile phone", "phone", "cell phone"]),
   ("coffee maker", ["coffee machine", "drip coffee"]),
   ("drill", ["power drill", "electric drill"]),
   ("knife", ["kitchen knife", "chef knife"]),
   ("screwdriver", ["tool", "hand tool"])]

/-- Accumulated match score of one (lowercased detection label, entry) pair
with detection confidence `conf`: the body of the inner `objectDatabase`
loop of the authoritative `matchToDatabase`
(`src/unnamed/part_000`, lines 210-262). -/
def pairScore (label : String) (conf : ℚ) (obj : KnowledgeEntry) : ℚ :=
  let objName := jsToLower obj.name
  let objTags := obj.tags.map jsToLower
  let objCategory := jsToLower obj.category
  let nameScore : ℚ :=
    if objName = label then 1 * conf
    else if (jsIncludes objName label || jsIncludes label objName)
        && decide (3 < label.length) && decide (3 < objName.length) then (7/10) * conf
    else 0
  let tagScore : ℚ :=
    (objTags.map (fun tag =>
      if tag = label then (9/10) * conf
      else if (jsIncludes tag label || jsIncludes label tag)
          && decide (3 < label.length) && decide (3 < tag.length) then (1/2) * conf
      else 0)).sum
  let categoryScore : ℚ :=
    if jsIncludes objCategory label || jsIncludes label objCategory then (3/10) * conf else 0
  let keywordScore : ℚ :=
    (keywordMappings.map (fun kv =>
      if kv.2.any (fun synonym => jsIncludes label synonym || jsIncludes synonym label) then
        (if jsIncludes objName kv.1 || objTags.contains kv.1 then (6/10) * conf else 0)
      else 0)).sum
  nameScore + tagScore + categoryScore + keywordScore

/-- Loop state of the authoritative matcher: current best match and the
highest accumulated score seen so far. -/
structure MatchState where
  best : Option MatchResult
  highest : ℚ
deriving DecidableEq

/-- One step of the inner entry loop: record `obj` as the best match when
its pair score beats the running maximum and exceeds the `0.2` update floor
(`src/unnamed/part_000`, lines 264-272). -/
def considerEntry (label : String) (conf : ℚ) (st : MatchState) (obj : KnowledgeEntry) :
    MatchState :=
  let s := pairScore label conf obj
  if st.highest < s ∧ 1/5 < s then
    { best := some { object := obj, confidence := min (jsRound (s * 100)) 95,
                     detectedAs := label, matchScore := s },
      highest := s }
  else st

/-- One step of the outer detection loop: detections with confidence below
the relevance floor `0.3` are skipped outright
(`src/unnamed/part_000`, lines 202-207). -/
def considerDetection (db : List KnowledgeEntry) (st : MatchState) (d : Detection) :
    MatchState :=
  let label := jsToLower (jsLabel d)
  let conf := d.score.getD 0
  if conf < 3/10 then st
  else db.foldl (considerEntry label conf) st

/-- The authoritative matcher `matchToDatabase` of `src/unnamed/part_000`
(lines 192-285): fold over all detections and entries, then reject the best
pair when the highest accumulated score falls below the acceptance floor
`0.4`. -/
def matchToDatabase (detections : List Detection) (db : List KnowledgeEntry) :
    Option MatchResult :=
  match detections.foldl (considerDetection db) { best := none, highest := 0 } with
  | { best := none, highest := _ } => none
  | { best := some b, highest := h } => if h < 2/5 then none else some b

/-- Decidable equality for `Except`, used to evaluate the superseded
matcher (which can throw) on concrete inputs. -/
instance {ε α : Type} [DecidableEq ε] [DecidableEq α] : DecidableEq (Except ε α) := fun a b =>
  match a, b with
  | Except.error e, Except.error f =>
    if h : e = f then Decidable.isTrue (congrArg Except.error h)
    else Decidable.isFalse (fun hh => h (by injection hh))
  | Except.error _, Except.ok _ => Decidable.isFalse (fun hh => Except.noConfusion hh)
  | Except.ok _, Except.error _ => Decidable.isFalse (fun hh => Except.noConfusion hh)
  | Except.ok x, Except.ok y =>
    if h : x = y then Decidable.isTrue (congrArg Except.ok h)
    else Decidable.isFalse (fun hh => h (by injection hh))

/-- The best-match record of the superseded matcher of
`src/unnamed/part_001` (lines 140-182), which stores only the entry and a
rounded, unclamped confidence. -/
structure LegacyMatch where
  object : KnowledgeEntry
  confidence : ℤ
deriving DecidableEq

/-- Accumulated match score of one pair in the superseded matcher: name
substring weight `0.8`, per-tag substring weight `0.6`, category substring
weight `0.5`, no length gates, no keyword mappings
(`src/unnamed/part_001`, lines 148-169). -/
def legacyPairScore (label : String) (conf : ℚ) (obj : KnowledgeEntry) : ℚ :=
  let lowLabel := jsToLower label
  let nameScore : ℚ :=
    if jsIncludes (jsToLower obj.name) lowLabel || jsIncludes lowLabel (jsToLower obj.name) then
      (8/10) * conf
    else 0
  let tagScore : ℚ :=
    (obj.tags.map (fun tag =>
      if jsIncludes (jsToLower tag) lowLabel || jsIncludes lowLabel (jsToLower tag) then
        (6/10) * conf
      else 0)).sum
  let categoryScore : ℚ :=
    if jsIncludes (jsToLower obj.category) lowLabel
        || jsIncludes lowLabel (jsToLower obj.category) then
      (1/2) * conf
    else 0
  nameScore + tagScore + categoryScore

/-- Inner entry loop of the superseded matcher: update on any strictly
better score, with no update floor and no confidence clamp
(`src/unnamed/part_001`, lines 171-177). -/
def legacyConsiderEntry (label : String) (conf : ℚ) (st : Option LegacyMatch × ℚ)
    (obj : KnowledgeEntry) : Option LegacyMatch × ℚ :=
  let s := legacyPairScore label conf obj
  if st.2 < s then (some { object := obj, confidence := jsRound (s * 100) }, s) else st

/-- Outer detection loop of the superseded matcher.  The source reads
`detection.description || detection.name` with no default, so a detection
carrying neither field makes `label.toLowerCase()` throw a `TypeError`,
modelled as `Except.error` (`src/unnamed/part_001`, lines 144-146). -/
def legacyStep (db : List KnowledgeEntry) (st : Option LegacyMatch × ℚ) (d : Detection) :
    Except String (Option LegacyMatch × ℚ) :=
  match jsLabelOpt d with
  | none => Except.error "TypeError"
  | some label => Except.ok (db.foldl (legacyConsiderEntry label (d.score.getD 0)) st)

/-- The superseded matcher `matchToDatabase` of `src/unnamed/part_001`
(lines 140-182): no relevance floor, no acceptance floor, returns the best
match (possibly none) without clamping. -/
def matchToDatabaseLegacy (detections : List Detection) (db : List KnowledgeEntry) :
    Except String (Option LegacyMatch) := do
  let st ← detections.foldlM (legacyStep db) (none, 0)
  pure st.1

/-- JavaScript `label.split(' ')` accumulator: split on each single space,
keeping empty segments (so `''.split(' ') = ['']`). -/
def splitSpaceAux : List Char → List Char → List String
  | [], acc => [String.mk acc.reverse]
  | c :: cs, acc =>
    if c = ' ' then String.mk acc.reverse :: splitSpaceAux cs []
    else splitSpaceAux cs (c :: acc)

/-- JavaScript `s.split(' ')`. -/
def jsSplitSpace (s : String) : List String := splitSpaceAux s.data []

/-- JavaScript `array.join(' ')`. -/
def jsJoinSpace : List String → String
  | [] => ""
  | [w] => w
  | w :: ws => w ++ " " ++ jsJoinSpace ws

/-- Lookup in a JavaScript object literal used as a table, with a default
for absent keys (the `table[key] || dflt` idiom; every stored value in the
synthesizer's tables is truthy). -/
def lookupD {α : Type} (table : List (String × α)) (key : String) (dflt : α) : α :=
  match table.find? (fun kv => kv.1 == key) with
  | some kv => kv.2
  | none => dflt

/-- One step of the generated two-step instruction outline. -/
structure InstructionStep where
  title : String
  description : String
  timeEstimate : String
  substeps : List String
deriving DecidableEq

/-- The age-restriction record returned by `getAgeRestrictions`; the
category rows carry a `supervisionAge`, the generic default carries `notes`
instead. -/
structure AgeRestriction where
  minimumAge : String
  supervisionRequired : Bool
  supervisionAge : Option String
  notes : Option String
deriving DecidableEq

/-- The record synthesized by `generateInstructionsForObject`
(`src/src/data/visionToInstructions.js`, lines 68-88). -/
structure SynthesizedEntry where
  id : String
  name : String
  category : String
  tags : List String
  description : String
  difficulty : String
  timeEstimate : String
  safetyLevel : String
  image : Option String
  commonUses : List String
  materials : List String
  generalWarnings : List String
  instructions : List InstructionStep
  maintenance : List String
  storage : String
  lifespan : String
  ageRestrictions : AgeRestriction
  confidence : ℤ
  source : String
deriving DecidableEq

/-- The `categoryMapping` label-to-category table
(`src/src/data/visionToInstructions.js`, lines 9-64). -/
def categoryMapping : List (String × String) :=
  [("mobile phone", "Electronics"), ("smartphone", "Electronics"),
   ("telephone", "Electronics"), ("computer", "Electronics"),
   ("laptop", "Electronics"), ("tablet", "Electronics"),
   ("camera", "Electronics"), ("television", "Electronics"),
   ("speaker", "Electronics"),
   ("knife", "Kitchen Tools"), ("kitchen knife", "Kitchen Tools"),
   ("spoon", "Kitchen Tools"), ("fork", "Kitchen Tools"),
   ("spatula", "Kitchen Tools"), ("whisk", "Kitchen Tools"),
   ("cutting board", "Kitchen Tools"),
   ("coffee maker", "Appliances"), ("microwave", "Appliances"),
   ("toaster", "Appliances"), ("blender", "Appliances"),
   ("washing machine", "Appliances"), ("refrigerator", "Appliances"),
   ("dishwasher", "Appliances"),
   ("hammer", "Hand Tools"), ("screwdriver", "Hand Tools"),
   ("wrench", "Hand Tools"), ("drill", "Power Tools"),
   ("saw", "Power Tools"), ("pliers", "Hand Tools"),
   ("plant", "Plants"), ("flower", "Plants"), ("tree", "Plants"),
   ("succulent", "Plants"), ("houseplant", "Plants"),
   ("bicycle", "Sports Equipment"), ("ball", "Sports Equipment"),
   ("racket", "Sports Equipment"), ("dumbbell", "Sports Equipment"),
   ("fire extinguisher", "Safety Equipment"),
   ("first aid kit", "Safety Equipment"), ("helmet", "Safety Equipment")]

/-- JavaScript `word.charAt(0).toUpperCase() + word.slice(1)`. -/
def capitalizeWord (w : String) : String :=
  match w.data with
  | [] => ""
  | c :: cs => String.mk (c.toUpper :: cs)

/-- The synthesizer's `formatObjectName`: title-case each space-separated
word of the label. -/
def formatObjectName (label : String) : String :=
  jsJoinSpace ((jsSplitSpace label).map capitalizeWord)

/-- The synthesizer's `generateTags`: lowercased label words plus any known
synonyms. -/
def generateTags (label : String) : List String :=
  let words := jsSplitSpace (jsToLower label)
  let synonyms : List (String × List String) :=
    [("mobile phone", ["smartphone", "cell phone", "phone", "device"]),
     ("knife", ["blade", "cutting tool", "kitchen knife"]),
     ("computer", ["laptop", "pc", "desktop", "device"]),
     ("plant", ["houseplant", "green", "botanical"])]
  words ++ lookupD synonyms (jsToLower label) []

/-- The synthesizer's `generateDescription`: a templated one-sentence
description keyed by category, with the General Items template as default. -/
def generateDescription (label category : String) : String :=
  let templates : List (String × String) :=
    [("Electronics",
      "A " ++ label ++ " commonly used for communication, entertainment, or productivity tasks."),
     ("Kitchen Tools", "A " ++ label ++ " used for food preparation and cooking tasks."),
     ("Appliances", "A " ++ label ++ " household appliance for daily living tasks."),
     ("Hand Tools", "A " ++ label ++ " manual tool for various repair and construction tasks."),
     ("Power Tools", "A " ++ label ++ " power tool for construction, repair, and DIY projects."),
     ("Plants", "A " ++ label ++ " that requires care, watering, and proper lighting conditions."),
     ("Sports Equipment", "A " ++ label ++ " used for athletic activities and exercise."),
     ("Safety Equipment",
      "A " ++ label ++ " designed for protection and emergency situations."),
     ("General Items", "A " ++ label ++ " with various practical applications.")]
  lookupD templates category ("A " ++ label ++ " with various practical applications.")

/-- The synthesizer's `getDifficultyLevel`. -/
def getDifficultyLevel (category : String) : String :=
  lookupD
    [("Electronics", "Beginner"), ("Kitchen Tools", "Intermediate"),
     ("Appliances", "Beginner"), ("Hand Tools", "Beginner"),
     ("Power Tools", "Intermediate"), ("Plants", "Beginner"),
     ("Sports Equipment", "Beginner"), ("Safety Equipment", "Intermediate")]
    category "Beginner"

/-- The synthesizer's `getTimeEstimate`. -/
def getTimeEstimate (category : String) : String :=
  lookupD
    [("Electronics", "5-15 min"), ("Kitchen Tools", "5-10 min"),
     ("Appliances", "10-30 min"), ("Hand Tools", "2-5 min"),
     ("Power Tools", "10-20 min"), ("Plants", "5-10 min daily"),
     ("Sports Equipment", "15-30 min"), ("Safety Equipment", "5-10 min")]
    category "5-10 min"

/-- The synthesizer's `getSafetyLevel`: high for labels containing a hazard
substring, medium for inherently risky categories, low otherwise. -/
def getSafetyLevel (label category : String) : String :=
  let dangerousItems := ["knife", "saw", "drill", "fire", "chemical"]
  if dangerousItems.any (fun item => jsIncludes (jsToLower label) item) then "high"
  else if category = "Power Tools" then "medium"
  else if category = "Safety Equipment" then "medium"
  else "low"

/-- The synthesizer's `generateCommonUses`. -/
def generateCommonUses (label : String) : List String :=
  lookupD
    [("mobile phone", ["Making calls", "Sending messages", "Internet browsing", "Taking photos"]),
     ("knife", ["Cutting food", "Chopping vegetables", "Food preparation"]),
     ("computer", ["Work tasks", "Entertainment", "Communication", "Learning"]),
     ("plant", ["Air purification", "Home decoration", "Stress relief"])]
    (jsToLower label) ["Using " ++ label, "General purpose tasks"]

/-- The synthesizer's `generateMaterials`. -/
def generateMaterials (category : String) : List String :=
  lookupD
    [("Electronics", ["Plastic housing", "Electronic components", "Battery"]),
     ("Kitchen Tools", ["Stainless steel", "Plastic handle"]),
     ("Appliances", ["Metal housing", "Electronic controls"]),
     ("Plants", ["Soil", "Pot", "Water"])]
    category ["Various materials"]

/-- The synthesizer's `generateWarnings`. -/
def generateWarnings (label : String) : List String :=
  lookupD
    [("knife", ["Keep blade sharp and clean", "Always cut away from body", "Store safely"]),
     ("mobile phone",
      ["Avoid water damage", "Don\x27t use while driving", "Keep away from extreme heat"]),
     ("computer", ["Ensure proper ventilation", "Use surge protection", "Keep liquids away"]),
     ("plant", ["Check for toxicity to pets", "Avoid overwatering", "Provide adequate light"])]
    (jsToLower label) ["Use as intended", "Follow safety guidelines"]

/-- The synthesizer's `generateBasicInstructions`: a fixed two-step outline
parameterized by the label. -/
def generateBasicInstructions (label : String) : List InstructionStep :=
  [{ title := "Basic Setup",
     description := "Learn how to properly set up and prepare your " ++ label,
     timeEstimate := "5 min",
     substeps :=
       ["Inspect the " ++ label ++ " for any damage",
        "Read any included instructions or labels",
        "Ensure you have proper lighting and space",
        "Gather any additional tools needed"] },
   { title := "Safe Operation",
     description := "How to use your " ++ label ++ " safely and effectively",
     timeEstimate := "10 min",
     substeps :=
       ["Follow proper safety precautions",
        "Use the " ++ label ++ " as intended",
        "Monitor for any issues during use",
        "Stop if anything seems unsafe"] }]

/-- The synthesizer's `generateMaintenance`. -/
def generateMaintenance (category : String) : List String :=
  lookupD
    [("Electronics", ["Keep clean and dry", "Update software regularly", "Store properly"]),
     ("Kitchen Tools", ["Clean after each use", "Dry thoroughly", "Store safely"]),
     ("Plants", ["Water regularly", "Prune as needed", "Check for pests"])]
    category ["Clean regularly", "Store properly", "Inspect for damage"]

/-- The synthesizer's `generateStorage`. -/
def generateStorage (category : String) : String :=
  lookupD
    [("Electronics", "Store in dry place away from extreme temperatures"),
     ("Kitchen Tools", "Store in knife block or secure drawer"),
     ("Plants", "Keep in appropriate lighting conditions")]
    category "Store in clean, dry place when not in use"

/-- The synthesizer's `getLifespan`. -/
def getLifespan (category : String) : String :=
  lookupD
    [("Electronics", "3-5 years average"),
     ("Kitchen Tools", "5-10 years with proper care"),
     ("Appliances", "10-15 years with maintenance"),
     ("Plants", "Varies by species and care")]
    category "5+ years with proper care"

/-- The synthesizer's `getAgeRestrictions`. -/
def getAgeRestrictions (category : String) : AgeRestriction :=
  lookupD
    [("Kitchen Tools",
      { minimumAge := "12 years", supervisionRequired := true,
        supervisionAge := some "16", notes := none }),
     ("Power Tools",
      { minimumAge := "16 years", supervisionRequired := true,
        supervisionAge := some "18", notes := none }),
     ("Safety Equipment",
      { minimumAge := "10 years", supervisionRequired := true,
        supervisionAge := some "14", notes := none })]
    category
    { minimumAge := "8 years", supervisionRequired := false,
      supervisionAge := none,
      notes := some "Adult guidance recommended for first use" }

/-- Assembly of the synthesized record from the extracted label, the rounded
confidence percentage and the `Date.now()` timestamp used for the generated
identifier (`src/src/data/visionToInstructions.js`, lines 66-88). -/
def mkSynthesized (detectedLabel : String) (confidence : ℤ) (now : ℤ) : SynthesizedEntry :=
  let category := lookupD categoryMapping (jsToLower detectedLabel) "General Items"
  { id := "vision-" ++ toString now,
    name := formatObjectName detectedLabel,
    category := category,
    tags := generateTags detectedLabel,
    description := generateDescription detectedLabel category,
    difficulty := getDifficultyLevel category,
    timeEstimate := getTimeEstimate category,
    safetyLevel := getSafetyLevel detectedLabel category,
    image := none,
    commonUses := generateCommonUses detectedLabel,
    materials := generateMaterials category,
    generalWarnings := generateWarnings detectedLabel,
    instructions := generateBasicInstructions detectedLabel,
    maintenance := generateMaintenance category,
    storage := generateStorage category,
    lifespan := getLifespan category,
    ageRestrictions := getAgeRestrictions category,
    confidence := confidence,
    source := "Google Vision API" }

/-- The synthesizer `generateInstructionsForObject`
(`src/src/data/visionToInstructions.js`, lines 4-89).  The label is
`visionData.description || visionData.name` with no default: a detection
carrying neither field makes the source throw, modelled as `none`.  The
`Date.now()` call is taken as the explicit parameter `now`. -/
def generateInstructionsForObject (d : Detection) (now : ℤ) : Option SynthesizedEntry :=
  match jsLabelOpt d with
  | none => none
  | some detectedLabel => some (mkSynthesized detectedLabel (jsRound (d.score.getD 0 * 100)) now)

/-- The demo heuristic's match record (`object` is `undefined` in the
source when the knowledge base is empty, modelled with `Option`). -/
structure DemoMatch where
  object : Option KnowledgeEntry
  confidence : ℤ
  message : String
deriving DecidableEq

/-- The demo fallback heuristic `performDemoMatching`
(`src/unnamed/part_000`, lines 305-349).  `imageSize` is the length of the
image data URL; `r1`, `r2`, `r3` are the three successive `Math.random()`
draws (branch test, entry index, confidence), each in `[0,1)`. -/
def performDemoMatching (db : List KnowledgeEntry) (imageSize : ℕ) (r1 r2 r3 : ℚ) :
    Option DemoMatch :=
  let bigHit := if 50000 < imageSize then (db.filter (fun o => o.category == "Appliances")).head?
    else none
  match bigHit with
  | some a =>
    some { object := some a, confidence := 65,
           message := "Demo mode: Detected based on image size analysis" }
  | none =>
    let smallHit := if imageSize < 30000 then
        (db.filter (fun o => o.category == "Hand Tools")).head?
      else none
    match smallHit with
    | some t =>
      some { object := some t, confidence := 70,
             message := "Demo mode: Detected based on image characteristics" }
    | none =>
      if 7/10 < r1 then
        some { object := db.get? (jsFloor (r2 * db.length)).toNat,
               confidence := jsFloor (r3 * 30) + 40,
               message := "Demo mode: Random selection for demonstration" }
      else none

/-- The sum of outcomes a recognition request can deliver: a curated match,
a dynamically synthesized entry with its confidence, a demo-heuristic match,
or the user-facing not-recognized message. -/
inductive RecoResult where
  | matched (m : MatchResult)
  | dynamic (e : SynthesizedEntry) (confidence : ℤ)
  | demo (m : DemoMatch)
  | notRecognized (message : String)
deriving DecidableEq

/-- The demo-tier wrapper `performIntelligentMatching`
(`src/unnamed/part_000`, lines 287-303): return the demo match when there is
one, else the guidance message. -/
def performIntelligentMatching (db : List KnowledgeEntry) (imageSize : ℕ) (r1 r2 r3 : ℚ) :
    RecoResult :=
  match performDemoMatching db imageSize r1 r2 r3 with
  | some m => RecoResult.demo m
  | none =>
    RecoResult.notRecognized
      "Object not recognized. Try taking another photo with better lighting or search manually using the search tab."

/-- The synthesis tail of `callComputerVisionAPI`
(`src/unnamed/part_000`, lines 170-184): take the first label annotation,
require its score to strictly exceed `0.5`, synthesize instructions for it;
otherwise return null.  A synthesizer throw (label-less detection)
propagates as an error. -/
def synthPath (labels : List Detection) (now : ℤ) : Except String (Option RecoResult) :=
  match labels.head? with
  | some d =>
    if 1/2 < d.score.getD 0 then
      match generateInstructionsForObject d now with
      | some e =>
        Except.ok (some (RecoResult.dynamic e (jsRound (d.score.getD 0 * 100))))
      | none => Except.error "TypeError"
    else Except.ok none
  | none => Except.ok none

/-- The post-response decision of `callComputerVisionAPI`
(`src/unnamed/part_000`, lines 154-184): return the database match directly
when its confidence strictly exceeds `70`, else fall to the synthesis
tail. -/
def processDetections (db : List KnowledgeEntry) (labels objects : List Detection) (now : ℤ) :
    Except String (Option RecoResult) :=
  match matchToDatabase (labels ++ objects) db with
  | some m =>
    if 70 < m.confidence then Except.ok (some (RecoResult.matched m))
    else synthPath labels now
  | none => synthPath labels now

/-- One `responses[i]` element of the provider's reply; either annotation
list may be absent (defaulted to `[]` by the source). -/
structure AnnotationSet where
  labelAnnotations : Option (List Detection)
  localizedObjectAnnotations : Option (List Detection)
deriving DecidableEq

/-- The provider's HTTP reply as consumed by the orchestrator: `ok`/`status`
from the fetch response, `errorText` its error body, `responses` the parsed
JSON body (absent models a body without a `responses` field). -/
structure VisionResponse where
  ok : Bool
  status : ℕ
  errorText : String
  responses : Option (List AnnotationSet)
deriving DecidableEq

/-- The provider call `callComputerVisionAPI`
(`src/unnamed/part_000`, lines 110-190).  `apiKey` models
`process.env.REACT_APP_GOOGLE_VISION_API_KEY` (absent or empty is falsy and
throws); `fetchResult` models the network round-trip, whose failure is
rethrown.  A non-ok HTTP status throws; an absent or empty `responses`
array returns null. -/
def callComputerVisionAPI (db : List KnowledgeEntry) (apiKey : Option String)
    (fetchResult : Except String VisionResponse) (now : ℤ) :
    Except String (Option RecoResult) :=
  match apiKey with
  | none => Except.error "API key not configured"
  | some k =>
    if k = "" then Except.error "API key not configured"
    else
      match fetchResult with
      | Except.error e => Except.error e
      | Except.ok resp =>
        if resp.ok = false then
          Except.error ("API request failed: " ++ toString resp.status ++ " - " ++ resp.errorText)
        else
          match resp.responses with
          | some rs =>
            match rs.head? with
            | some ann =>
              processDetections db (ann.labelAnnotations.getD [])
                (ann.localizedObjectAnnotations.getD []) now
            | none => Except.ok none
          | none => Except.ok none

/-- The recognition orchestrator `performObjectRecognition`
(`src/unnamed/part_000`, lines 87-108): try the provider; on any thrown
error, or on a null result, fall back to the demo tier. -/
def performObjectRecognition (db : List KnowledgeEntry) (apiKey : Option String)
    (fetchResult : Except String VisionResponse) (now : ℤ) (imageSize : ℕ) (r1 r2 r3 : ℚ) :
    RecoResult :=
  match callComputerVisionAPI db apiKey fetchResult now with
  | Except.ok (some r) => r
  | Except.ok none => performIntelligentMatching db imageSize r1 r2 r3
  | Except.error _ => performIntelligentMatching db imageSize r1 r2 r3

/-- The synthesized record with its generated identifier blanked, used to
compare two synthesizer outputs up to the identifier/timestamp field. -/
def stripId (e : SynthesizedEntry) : SynthesizedEntry := { e with id := "" }

/-- Invariant of the matcher's loop state: any stored best match carries
exactly the running highest score, and a confidence already within
`[0, 95]`. -/
def stateOk (st : MatchState) : Prop :=
  ∀ b, st.best = some b → b.matchScore = st.highest ∧ 0 ≤ b.confidence ∧ b.confidence ≤ 95

/-- The scenario detection `{label: "mobile phone", score: 0.9}`. -/
def phoneDetection : Detection := ⟨some "mobile phone", none, some (9/10)⟩

/-- The scenario knowledge-base entry named `Smartphone` whose tag set
contains `mobile phone`. -/
def smartphoneEntry : KnowledgeEntry := ⟨"Smartphone", "Electronics", ["mobile phone"]⟩

/-- A detection whose single matching signal is one partial tag match of
weight exactly `0.5 × 0.8 = 0.4`. -/
def abcdDetection : Detection := ⟨some "abcd", none, some (4/5)⟩

/-- An entry matching `abcdDetection` only through the partial tag
`abcde`. -/
def gadgetEntry : KnowledgeEntry := ⟨"qqqq", "zzzz", ["abcde"]⟩

/-- A detection whose score `0.2` sits below the authoritative relevance
floor `0.3` but still scores in the superseded matcher. -/
def screwDetection : Detection := ⟨some "screwdriver", none, some (1/5)⟩

/-- The knowledge-base entry the two matchers treat differently for
`screwDetection`. -/
def screwdriverEntry : KnowledgeEntry := ⟨"Screwdriver", "Hand Tools", []⟩

/-! Helper lemmas about the matcher's fold. -/

lemma foldl_induct {σ α : Type} (f : σ → α → σ) (P : σ → Prop) :
    ∀ (l : List α) (s : σ), P s → (∀ t a, a ∈ l → P t → P (f t a)) → P (l.foldl f s) := by
  intro l
  induction l with
  | nil => intro s hs _; exact hs
  | cons a l ih =>
    intro s hs hstep
    exact ih (f s a) (hstep s a (List.mem_cons_self a l) hs)
      (fun t b hb ht => hstep t b (List.mem_cons_of_mem a hb) ht)

lemma jsRound_nonneg {q : ℚ} (h : 0 ≤ q) : 0 ≤ jsRound q := by
  unfold jsRound
  have : ((0 : ℤ) : ℚ) ≤ q + 1/2 := by push_cast; linarith
  exact Int.le_floor.mpr this

lemma considerEntry_stateOk (label : String) (conf : ℚ) (st : MatchState)
    (obj : KnowledgeEntry) (h : stateOk st) : stateOk (considerEntry label conf st obj) := by
  simp only [considerEntry]
  split_ifs with hcond
  · intro b hb
    simp only [Option.some.injEq] at hb
    subst hb
    refine ⟨rfl, ?_, ?_⟩
    · refine le_min (jsRound_nonneg ?_) (by decide)
      have : (0 : ℚ) < pairScore label conf obj := lt_trans (by norm_num) hcond.2
      positivity
    · exact min_le_right _ _
  · exact h

lemma considerDetection_stateOk (db : List KnowledgeEntry) (st : MatchState) (d : Detection)
    (h : stateOk st) : stateOk (considerDetection db st d) := by
  simp only [considerDetection]
  split_ifs with hskip
  · exact h
  · exact foldl_induct _ stateOk db st h
      (fun t a _ ht => considerEntry_stateOk _ _ t a ht)

lemma matchToDatabase_stateOk (detections : List Detection) (db : List KnowledgeEntry) :
    stateOk (detections.foldl (considerDetection db) { best := none, highest := 0 }) :=
  foldl_induct _ stateOk detections { best := none, highest := 0 }
    (fun b hb => by cases hb) (fun t a _ ht => considerDetection_stateOk db t a ht)

lemma considerEntry_highest_lt (label : String) (conf : ℚ) (db : List KnowledgeEntry)
    (st : MatchState) (hdb : ∀ e ∈ db, pairScore label conf e < 2/5)
    (hst : st.highest < 2/5) :
    (db.foldl (considerEntry label conf) st).highest < 2/5 := by
  refine foldl_induct _ (fun s => s.highest < 2/5) db st hst (fun t a ha ht => ?_)
  simp only [considerEntry]
  split_ifs with hcond
  · exact hdb a ha
  · exact ht

lemma considerDetection_highest_lt (db : List KnowledgeEntry) (st : MatchState) (d : Detection)
    (hd : ∀ e ∈ db, pairScore (jsToLower (jsLabel d)) (d.score.getD 0) e < 2/5)
    (hst : st.highest < 2/5) : (considerDetection db st d).highest < 2/5 := by
  simp only [considerDetection]
  split_ifs with hskip
  · exact hst
  · exact considerEntry_highest_lt _ _ db st hd hst

lemma considerDetection_skip (db : List KnowledgeEntry) (st : MatchState) (d : Detection)
    (h : d.score.getD 0 < 3/10) : considerDetection db st d = st := by
  unfold considerDetection
  exact if_pos h

lemma filter_foldl_eq (db : List KnowledgeEntry) :
    ∀ (dets : List Detection) (st : MatchState),
      (dets.filter (fun d => decide ((3:ℚ)/10 ≤ d.score.getD 0))).foldl
          (considerDetection db) st =
        dets.foldl (considerDetection db) st := by
  intro dets
  induction dets with
  | nil => intro st; rfl
  | cons d ds ih =>
    intro st
    by_cases h : (3:ℚ)/10 ≤ d.score.getD 0
    · rw [List.filter_cons, if_pos (decide_eq_true h), List.foldl_cons, List.foldl_cons]
      exact ih _
    · rw [List.filter_cons, if_neg (by simpa using h), List.foldl_cons,
        considerDetection_skip db st d (lt_of_not_le h)]
      exact ih st

/-! Claim theorems. -/

/-- C1, counterexample: in the spec's scenario (detection `mobile phone`
with score `0.9` against entry `Smartphone` tagged `mobile phone`), the
accumulated pair score is not `0.81` and the returned confidence is not
`81`: the two keyword-mapping signals also fire. -/
theorem scenario_claim_false :
    ¬(pairScore "mobile phone" (9/10) smartphoneEntry = 81/100 ∧
      (matchToDatabase [phoneDetection] [smartphoneEntry]).map MatchResult.confidence =
        some 81) := by
  decide

/-- C1, amended: the scenario's accumulated pair score is
`0.81 + 0.54 + 0.54 = 1.89` (tag exact match plus the `mobile phone` and
`smartphone` keyword-mapping contributions), and the returned MatchResult
has confidence clamped to `95`. -/
theorem scenario_amended :
    pairScore "mobile phone" (9/10) smartphoneEntry = 189/100 ∧
    matchToDatabase [phoneDetection] [smartphoneEntry] =
      some ⟨smartphoneEntry, 95, "mobile phone", 189/100⟩ := by
  decide

/-- C2, counterexample: a detection list whose only pair scores exactly
`0.4` (so every pair's accumulated score is `≤ 0.4`) still yields a
MatchResult, because the source only rejects `highestScore < 0.4`. -/
theorem acceptance_floor_claim_false :
    ¬((∀ d ∈ [abcdDetection], ∀ e ∈ [gadgetEntry],
        pairScore (jsToLower (jsLabel d)) (d.score.getD 0) e ≤ 2/5) →
      matchToDatabase [abcdDetection] [gadgetEntry] = none) := by
  intro h
  exact absurd (h (by decide)) (by decide)

/-- C2, amended: the acceptance floor is strict rejection below `0.4`:
whenever every (detection, entry) pair's accumulated score is strictly
below `0.4` the matcher returns no match, and any returned MatchResult
carries an accumulated score of at least `0.4`. -/
theorem acceptance_floor_strict :
    (∀ (dets : List Detection) (db : List KnowledgeEntry),
      (∀ d ∈ dets, ∀ e ∈ db,
        pairScore (jsToLower (jsLabel d)) (d.score.getD 0) e < 2/5) →
      matchToDatabase dets db = none) ∧
    (∀ (dets : List Detection) (db : List KnowledgeEntry) (r : MatchResult),
      matchToDatabase dets db = some r → 2/5 ≤ r.matchScore) := by
  constructor
  · intro dets db hall
    obtain ⟨⟨best, highest⟩, hfin⟩ :
        ∃ st, dets.foldl (considerDetection db) { best := none, highest := 0 } = st :=
      ⟨_, rfl⟩
    have hlt : highest < 2/5 := by
      have h2 := foldl_induct (considerDetection db) (fun s => s.highest < 2/5) dets
        { best := none, highest := 0 } (by norm_num)
        (fun t a ha ht => considerDetection_highest_lt db t a (hall a ha) ht)
      rw [hfin] at h2
      exact h2
    unfold matchToDatabase
    rw [hfin]
    cases best with
    | none => rfl
    | some b => exact if_pos hlt
  · intro dets db r h
    obtain ⟨⟨best, highest⟩, hfin⟩ :
        ∃ st, dets.foldl (considerDetection db) { best := none, highest := 0 } = st :=
      ⟨_, rfl⟩
    have hok := matchToDatabase_stateOk dets db
    rw [hfin] at hok
    unfold matchToDatabase at h
    rw [hfin] at h
    cases best with
    | none => exact Option.noConfusion h
    | some b =>
      change (if highest < 2/5 then none else some b) = some r at h
      split_ifs at h with hge
      injection h with hbr
      subst hbr
      obtain ⟨hms, -, -⟩ := hok b rfl
      rw [hms]
      exact not_lt.mp hge

/-- C2, witness for the amended theorem at concrete inputs. -/
theorem acceptance_floor_strict_witness :
    matchToDatabase [(⟨some "zzz", none, some (1/2)⟩ : Detection)] [screwdriverEntry] = none ∧
    (2:ℚ)/5 ≤ (189/100 : ℚ) :=
  ⟨acceptance_floor_strict.1 _ _ (by decide),
   acceptance_floor_strict.2 [phoneDetection] [smartphoneEntry]
     ⟨smartphoneEntry, 95, "mobile phone", 189/100⟩ (by decide)⟩

/-- C3: whenever the authoritative matcher returns a MatchResult, its
confidence is an integer in `[0, 95]` (the rounded percentage is clamped to
the `95` ceiling). -/
theorem confidence_in_range :
    ∀ (dets : List Detection) (db : List KnowledgeEntry) (r : MatchResult),
      matchToDatabase dets db = some r → 0 ≤ r.confidence ∧ r.confidence ≤ 95 := by
  intro dets db r h
  obtain ⟨⟨best, highest⟩, hfin⟩ :
      ∃ st, dets.foldl (considerDetection db) { best := none, highest := 0 } = st :=
    ⟨_, rfl⟩
  have hok := matchToDatabase_stateOk dets db
  rw [hfin] at hok
  unfold matchToDatabase at h
  rw [hfin] at h
  cases best with
  | none => exact Option.noConfusion h
  | some b =>
    change (if highest < 2/5 then none else some b) = some r at h
    split_ifs at h with hge
    injection h with hbr
    subst hbr
    exact (hok b rfl).2

/-- C3, witness at the scenario input, whose returned confidence is `95`. -/
theorem confidence_in_range_witness : (0:ℤ) ≤ 95 ∧ (95:ℤ) ≤ 95 :=
  confidence_in_range [phoneDetection] [smartphoneEntry]
    ⟨smartphoneEntry, 95, "mobile phone", 189/100⟩ (by decide)

/-- C5: detections with score strictly below the relevance floor `0.3`
(a missing score counting as `0`) contribute nothing: filtering them out
never changes the matcher's result, so such a detection can never be the
winning pair's detection. -/
theorem relevance_floor_filter :
    ∀ (dets : List Detection) (db : List KnowledgeEntry),
      matchToDatabase (dets.filter (fun d => decide ((3:ℚ)/10 ≤ d.score.getD 0))) db =
        matchToDatabase dets db := by
  intro dets db
  unfold matchToDatabase
  rw [filter_foldl_eq db dets]

/-- C9: the two matcher implementations are not behaviorally equivalent:
on the detection `screwdriver` with score `0.2` over a one-entry knowledge
base, the authoritative matcher returns no match (relevance floor `0.3`)
while the superseded matcher returns the entry with confidence `16`
(weight `0.8`, no floors, no clamp). -/
theorem matchers_inequivalent :
    matchToDatabase [screwDetection] [screwdriverEntry] = none ∧
    matchToDatabaseLegacy [screwDetection] [screwdriverEntry] =
      Except.ok (some ⟨screwdriverEntry, 16⟩) := by
  decide

/-- C10: the authoritative matcher is total on malformed detections: the
empty detection list yields no match, a detection list in which every
detection lacks a score yields no match (missing scores default to `0`, so
the relevance floor discards them), and a detection lacking both
description and name is treated as having the empty-string label. -/
theorem matcher_total_on_malformed :
    (∀ db : List KnowledgeEntry, matchToDatabase [] db = none) ∧
    (∀ (dets : List Detection) (db : List KnowledgeEntry),
      (∀ d ∈ dets, d.score = none) → matchToDatabase dets db = none) ∧
    (∀ sc : Option ℚ, jsLabel ⟨none, none, sc⟩ = "") := by
  refine ⟨fun db => rfl, ?_, fun sc => rfl⟩
  intro dets db hall
  have hfold : dets.foldl (considerDetection db) { best := none, highest := 0 } =
      ({ best := none, highest := 0 } : MatchState) := by
    refine foldl_induct _ (fun s => s = ({ best := none, highest := 0 } : MatchState)) dets _
      rfl (fun t a ha ht => ?_)
    rw [ht]
    refine considerDetection_skip db _ a ?_
    rw [hall a ha]
    norm_num
  unfold matchToDatabase
  rw [hfold]

/-- C10, witness: a detection list whose only detection lacks a score is
rejected without error. -/
theorem matcher_total_on_malformed_witness :
    matchToDatabase [(⟨some "phone", none, none⟩ : Detection)] [screwdriverEntry] = none :=
  matcher_total_on_malformed.2.1 _ _ (by decide)

lemma synthPath_ne_matched (labels : List Detection) (now : ℤ) (m : MatchResult) :
    synthPath labels now ≠ Except.ok (some (RecoResult.matched m)) := by
  unfold synthPath
  cases labels.head? with
  | none => intro h; injection h with h1; exact Option.noConfusion h1
  | some d =>
    dsimp only
    split_ifs with hs
    · cases generateInstructionsForObject d now with
      | none => intro h; exact Except.noConfusion h
      | some e =>
        intro h
        injection h with h1
        injection h1 with h2
        exact RecoResult.noConfusion h2
    · intro h; injection h with h1; exact Option.noConfusion h1

lemma synthPath_invoked (labels : List Detection) (now : ℤ) :
    (synthPath labels now ≠ Except.ok none ↔
      ∃ d, labels.head? = some d ∧ (1/2 : ℚ) < d.score.getD 0) := by
  unfold synthPath
  cases hh : labels.head? with
  | none => simp
  | some d =>
    dsimp only
    split_ifs with hs
    · cases hg : generateInstructionsForObject d now with
      | none => exact ⟨fun _ => ⟨d, rfl, hs⟩, fun _ h => Except.noConfusion h⟩
      | some e =>
        refine ⟨fun _ => ⟨d, rfl, hs⟩, fun _ h => ?_⟩
        injection h with h1
        exact Option.noConfusion h1
    · constructor
      · intro hne; exact absurd rfl hne
      · rintro ⟨d2, hd2, hs2⟩ _
        injection hd2 with h1
        subst h1
        exact hs hs2

/-- C4: after a successful provider response, the orchestrator returns the
matcher's result directly exactly when that result's confidence strictly
exceeds `70`; with no such high-confidence match it follows the synthesis
tail, which produces an output (rather than null) exactly when the first
raw label detection exists and its score strictly exceeds `0.5`. -/
theorem orchestrator_dispatch :
    ∀ (db : List KnowledgeEntry) (labels objects : List Detection) (now : ℤ),
      (∀ m : MatchResult,
        processDetections db labels objects now = Except.ok (some (RecoResult.matched m)) ↔
          (matchToDatabase (labels ++ objects) db = some m ∧ 70 < m.confidence)) ∧
      ((¬∃ m, matchToDatabase (labels ++ objects) db = some m ∧ 70 < m.confidence) →
        (processDetections db labels objects now = synthPath labels now ∧
          (synthPath labels now ≠ Except.ok none ↔
            ∃ d, labels.head? = some d ∧ (1/2 : ℚ) < d.score.getD 0))) := by
  intro db labels objects now
  constructor
  · intro m
    unfold processDetections
    cases hdm : matchToDatabase (labels ++ objects) db with
    | none =>
      constructor
      · intro h; exact absurd h (synthPath_ne_matched labels now m)
      · rintro ⟨hsome, -⟩; exact Option.noConfusion hsome
    | some m2 =>
      dsimp only
      by_cases hc : 70 < m2.confidence
      · rw [if_pos hc]
        constructor
        · intro h
          injection h with h1
          injection h1 with h2
          injection h2 with h3
          subst h3
          exact ⟨rfl, hc⟩
        · rintro ⟨hsome, h70⟩
          injection hsome with h1
          subst h1
          rfl
      · rw [if_neg hc]
        constructor
        · intro h; exact absurd h (synthPath_ne_matched labels now m)
        · rintro ⟨hsome, h70⟩
          injection hsome with h1
          subst h1
          exact absurd h70 hc
  · intro hno
    refine ⟨?_, synthPath_invoked labels now⟩
    unfold processDetections
    cases hdm : matchToDatabase (labels ++ objects) db with
    | none => rfl
    | some m =>
      have hc : ¬ 70 < m.confidence := fun hc => hno ⟨m, hdm, hc⟩
      exact if_neg hc

/-- C4, witness: a provider response with one weak label (`score 0.4`) and
no database match follows the synthesis tail, which yields null. -/
theorem orchestrator_dispatch_witness :
    (processDetections [screwdriverEntry] [(⟨some "xyz", none, some (2/5)⟩ : Detection)] [] 0 =
        synthPath [(⟨some "xyz", none, some (2/5)⟩ : Detection)] 0 ∧
      (synthPath [(⟨some "xyz", none, some (2/5)⟩ : Detection)] 0 ≠ Except.ok none ↔
        ∃ d, ([(⟨some "xyz", none, some (2/5)⟩ : Detection)]).head? = some d ∧
          (1/2 : ℚ) < d.score.getD 0)) := by
  refine (orchestrator_dispatch [screwdriverEntry]
    [(⟨some "xyz", none, some (2/5)⟩ : Detection)] [] 0).2 ?_
  rintro ⟨m, hm, -⟩
  have hnone : matchToDatabase
      ([(⟨some "xyz", none, some (2/5)⟩ : Detection)] ++ []) [screwdriverEntry] = none := by
    decide
  rw [hnone] at hm
  exact Option.noConfusion hm

/-- C6: the instruction synthesizer is deterministic: two invocations with
the same extracted label (case preserved) and the same score produce
identical records on every field except the generated identifier field. -/
theorem synthesizer_deterministic :
    ∀ (d1 d2 : Detection) (now1 now2 : ℤ),
      jsLabelOpt d1 = jsLabelOpt d2 →
      d1.score.getD 0 = d2.score.getD 0 →
      (generateInstructionsForObject d1 now1).map stripId =
        (generateInstructionsForObject d2 now2).map stripId := by
  intro d1 d2 now1 now2 h1 h2
  unfold generateInstructionsForObject
  rw [← h1, h2]
  cases jsLabelOpt d1 with
  | none => rfl
  | some l => rfl

/-- C6, witness: two detections carrying the label `Knife` in different
fields and distinct timestamps synthesize the same record up to the
identifier. -/
theorem synthesizer_deterministic_witness :
    (generateInstructionsForObject (⟨some "Knife", none, some (9/10)⟩ : Detection) 1).map
        stripId =
      (generateInstructionsForObject (⟨none, some "Knife", some (9/10)⟩ : Detection) 2).map
        stripId :=
  synthesizer_deterministic _ _ 1 2 rfl rfl

/-- C7: a missing API key makes the provider call throw, and every provider
error is recovered by the orchestrator, which returns the demo-tier result
instead of propagating the exception. -/
theorem provider_failure_recovered :
    (∀ (db : List KnowledgeEntry) (fetchResult : Except String VisionResponse) (now : ℤ),
      callComputerVisionAPI db none fetchResult now =
        Except.error "API key not configured") ∧
    (∀ (db : List KnowledgeEntry) (apiKey : Option String)
        (fetchResult : Except String VisionResponse) (now : ℤ) (imageSize : ℕ)
        (r1 r2 r3 : ℚ) (e : String),
      callComputerVisionAPI db apiKey fetchResult now = Except.error e →
      performObjectRecognition db apiKey fetchResult now imageSize r1 r2 r3 =
        performIntelligentMatching db imageSize r1 r2 r3) := by
  constructor
  · intro db fetchResult now; rfl
  · intro db apiKey fetchResult now imageSize r1 r2 r3 e h
    unfold performObjectRecognition
    rw [h]

/-- C7, witness: with no API key configured the orchestrator returns the
demo-tier result. -/
theorem provider_failure_recovered_witness :
    performObjectRecognition [screwdriverEntry] none
        (Except.ok ⟨true, 200, "", none⟩) 0 40000 (1/2) 0 0 =
      performIntelligentMatching [screwdriverEntry] 40000 (1/2) 0 0 :=
  provider_failure_recovered.2 [screwdriverEntry] none (Except.ok ⟨true, 200, "", none⟩) 0
    40000 (1/2) 0 0 "API key not configured" rfl

lemma demo_random_eq (db : List KnowledgeEntry) (imageSize : ℕ) (r1 r2 r3 : ℚ)
    (hbig : ¬(50000 < imageSize ∧ db.filter (fun o => o.category == "Appliances") ≠ []))
    (hsmall : ¬(imageSize < 30000 ∧ db.filter (fun o => o.category == "Hand Tools") ≠ [])) :
    performDemoMatching db imageSize r1 r2 r3 =
      if 7/10 < r1 then
        some ⟨db.get? (jsFloor (r2 * db.length)).toNat, jsFloor (r3 * 30) + 40,
          "Demo mode: Random selection for demonstration"⟩
      else none := by
  have hb : (if 50000 < imageSize then
      (db.filter (fun o => o.category == "Appliances")).head? else none) = none := by
    split_ifs with h
    · cases hfe : db.filter (fun o => o.category == "Appliances") with
      | nil => rfl
      | cons x xs => exact absurd ⟨h, by rw [hfe]; exact List.cons_ne_nil x xs⟩ hbig
    · rfl
  have hs : (if imageSize < 30000 then
      (db.filter (fun o => o.category == "Hand Tools")).head? else none) = none := by
    split_ifs with h
    · cases hfe : db.filter (fun o => o.category == "Hand Tools") with
      | nil => rfl
      | cons x xs => exact absurd ⟨h, by rw [hfe]; exact List.cons_ne_nil x xs⟩ hsmall
    · rfl
  simp only [performDemoMatching, hb, hs]

/-- C8: when neither payload-size branch of the demo heuristic applies, the
random branch fires exactly when the first random draw strictly exceeds
`0.7`, returning an existing knowledge-base entry (and any entry is
selectable by a suitable index draw) with confidence in `[40, 70]`;
otherwise the heuristic yields no match. -/
theorem demo_random_branch :
    ∀ (db : List KnowledgeEntry) (imageSize : ℕ) (r1 r2 r3 : ℚ),
      ¬(50000 < imageSize ∧ db.filter (fun o => o.category == "Appliances") ≠ []) →
      ¬(imageSize < 30000 ∧ db.filter (fun o => o.category == "Hand Tools") ≠ []) →
      db ≠ [] → 0 ≤ r2 → r2 < 1 → 0 ≤ r3 → r3 < 1 →
      ((7/10 < r1 →
          ∃ e ∈ db, ∃ c : ℤ, 40 ≤ c ∧ c ≤ 70 ∧
            performDemoMatching db imageSize r1 r2 r3 =
              some ⟨some e, c, "Demo mode: Random selection for demonstration"⟩) ∧
        (r1 ≤ 7/10 → performDemoMatching db imageSize r1 r2 r3 = none) ∧
        (∀ e ∈ db, ∃ q : ℚ, 0 ≤ q ∧ q < 1 ∧ (7/10 < r1 →
            performDemoMatching db imageSize r1 q r3 =
              some ⟨some e, jsFloor (r3 * 30) + 40,
                "Demo mode: Random selection for demonstration"⟩))) := by
  intro db imageSize r1 r2 r3 hbig hsmall hdb hr2a hr2b hr3a hr3b
  have hlen : 0 < db.length := List.length_pos.mpr hdb
  have hlenQ : (0 : ℚ) < db.length := by exact_mod_cast hlen
  refine ⟨?_, ?_, ?_⟩
  · intro h1
    rw [demo_random_eq db imageSize r1 r2 r3 hbig hsmall, if_pos h1]
    have hidx0 : 0 ≤ jsFloor (r2 * db.length) := by
      unfold jsFloor
      exact Int.le_floor.mpr (by push_cast; exact mul_nonneg hr2a (le_of_lt hlenQ))
    have hidxlt : jsFloor (r2 * db.length) < (db.length : ℤ) := by
      unfold jsFloor
      refine Int.floor_lt.mpr ?_
      push_cast
      calc r2 * db.length < 1 * db.length := by
            exact mul_lt_mul_of_pos_right hr2b hlenQ
        _ = db.length := one_mul _
    have hnat : (jsFloor (r2 * db.length)).toNat < db.length := by omega
    refine ⟨db.get ⟨(jsFloor (r2 * db.length)).toNat, hnat⟩, List.get_mem db _ _,
      jsFloor (r3 * 30) + 40, ?_, ?_, ?_⟩
    · have h0 : 0 ≤ jsFloor (r3 * 30) := by
        unfold jsFloor
        exact Int.le_floor.mpr (by push_cast; exact mul_nonneg hr3a (by norm_num))
      omega
    · have h30 : jsFloor (r3 * 30) < 30 := by
        unfold jsFloor
        exact Int.floor_lt.mpr (by push_cast; nlinarith)
      omega
    · rw [List.get?_eq_get hnat]
  · intro h2
    rw [demo_random_eq db imageSize r1 r2 r3 hbig hsmall, if_neg (not_lt.mpr h2)]
  · intro e he
    obtain ⟨i, hi⟩ := List.mem_iff_get?.mp he
    have hilt : i < db.length := by
      by_contra hge
      rw [List.get?_eq_none.mpr (le_of_not_lt hge)] at hi
      exact Option.noConfusion hi
    refine ⟨(i : ℚ) / db.length, by positivity, ?_, ?_⟩
    · rw [div_lt_one hlenQ]
      exact_mod_cast hilt
    · intro h1
      rw [demo_random_eq db imageSize r1 _ r3 hbig hsmall, if_pos h1]
      have hquot : ((i : ℚ) / db.length) * db.length = (i : ℚ) :=
        div_mul_cancel₀ _ (ne_of_gt hlenQ)
      have hfl : jsFloor (((i : ℚ) / db.length) * db.length) = (i : ℤ) := by
        rw [hquot]
        unfold jsFloor
        exact_mod_cast Int.floor_natCast i
      rw [hfl]
      have : ((i : ℤ)).toNat = i := by omega
      rw [this, hi]

/-- C8, witness: over a one-entry knowledge base with a mid-size payload,
the draw `r1 = 0.8` returns that entry with confidence in `[40, 70]`. -/
theorem demo_random_branch_witness :
    ∃ e ∈ [screwdriverEntry], ∃ c : ℤ, 40 ≤ c ∧ c ≤ 70 ∧
      performDemoMatching [screwdriverEntry] 40000 (4/5) 0 0 =
        some ⟨some e, c, "Demo mode: Random selection for demonstration"⟩ :=
  (demo_random_branch [screwdriverEntry] 40000 (4/5) 0 0 (by decide) (by decide) (by decide)
    (by norm_num) (by norm_num) (by norm_num) (by norm_num)).1 (by norm_num)

end ObjectWise
